import Mathlib

/-!
# Command dispatch of the stream-manager chat bot (`src/bot.js`)

A shallow embedding of the command parser, the API client, the command
handlers and the embed rendering of `src/bot.js`, followed by theorems about
them.

## Modelling conventions

* A JavaScript string is a Lean `String`; list-level reasoning goes through
  `String.data`.  Lone UTF-16 surrogates are not representable.
* A JavaScript number is an `Int`.  `Number.parseInt` is embedded with exact
  integer arithmetic; the only consumer (`handleLogCommand`) compares the
  result with `1` and `50`, which rounding to a double does not change.
* An `async` handler is embedded as a function returning the ordered list of
  externally visible effects it performs (`Effect`): HTTP requests, replies to
  the originating message, and the configuration write of `setlogchannel`.
* The remote service and the host runtime are parameters (`Env`): the
  outcome of each HTTP request (`none` when `axios` throws), whether
  `fs.writeFileSync` succeeds, `String.prototype.toLowerCase` and
  `Date.prototype.toLocaleString`.
* A response body has the shape of §3 of the specification (`ApiResult`):
  `success` is a boolean, list payloads are lists.  Scalars that the code only
  interpolates into template literals are arbitrary scalars (`JSVal`).  A
  payload field that a response object does not carry is represented by the
  empty value of its type; the handlers read payload fields only after
  `success` was checked.
* `EmbedBuilder` is embedded as a record whose `addFields` appends; the limits
  that the chat library itself enforces on embeds are not part of `bot.js`.
-/

namespace Bot

/-! ## JavaScript values and strings -/

/-- A JavaScript scalar value. -/
inductive JSVal where
  | undefined : JSVal
  | null : JSVal
  | bool (b : Bool) : JSVal
  | num (n : Int) : JSVal
  | str (s : String) : JSVal
  deriving DecidableEq, Repr

/-- The `ToString` conversion applied by a template literal `${v}`. -/
def JSVal.toStr : JSVal → String
  | .undefined => "undefined"
  | .null => "null"
  | .bool true => "true"
  | .bool false => "false"
  | .num n => toString n
  | .str s => s

/-- The code points that `String.prototype.trim` and `parseInt` skip:
`WhiteSpace` and `LineTerminator` of ECMAScript. -/
def isStrWhiteSpaceChar (c : Char) : Bool :=
  let n := c.toNat
  n = 0x09 || n = 0x0A || n = 0x0B || n = 0x0C || n = 0x0D || n = 0x20 ||
  n = 0xA0 || n = 0x1680 || (0x2000 ≤ n && n ≤ 0x200A) || n = 0x2028 ||
  n = 0x2029 || n = 0x202F || n = 0x205F || n = 0x3000 || n = 0xFEFF

/-- The function `String.prototype.trim` on code-point lists. -/
def trimChars (l : List Char) : List Char :=
  ((l.dropWhile isStrWhiteSpaceChar).reverse.dropWhile isStrWhiteSpaceChar).reverse

/-- The function `String.prototype.trim`. -/
def trim (s : String) : String := ⟨trimChars s.data⟩

/-- The function `String.prototype.startsWith`. -/
def startsWith (s pre : String) : Bool := pre.data.isPrefixOf s.data

/-- The function `String.prototype.slice(n)` for `0 ≤ n`. -/
def slice (s : String) (n : Nat) : String := ⟨s.data.drop n⟩

/-- The scan of `String.prototype.split(/ +/)`: `cur` is the token being read
(reversed), `inSep` tells that the previous character belonged to a run of
spaces that already closed a token. -/
def splitSpacesAux : Bool → List Char → List Char → List (List Char)
  | _, cur, [] => [cur.reverse]
  | inSep, cur, c :: cs =>
    if c = ' ' then
      if inSep then splitSpacesAux true cur cs
      else cur.reverse :: splitSpacesAux true [] cs
    else splitSpacesAux false (c :: cur) cs

/-- The function `String.prototype.split(/ +/)`: the separators are the maximal
runs of U+0020; the empty string yields one empty token. -/
def splitSpaces (s : String) : List String :=
  (splitSpacesAux false [] s.data).map String.mk

/-- The function `Array.prototype.join(sep)` on strings. -/
def join (sep : String) (xs : List String) : String := sep.intercalate xs

/-- The value of a character as a digit in some radix up to 36. -/
def digitValue (c : Char) : Option Nat :=
  let n := c.toNat
  if 48 ≤ n ∧ n ≤ 57 then some (n - 48)
  else if 97 ≤ n ∧ n ≤ 122 then some (n - 97 + 10)
  else if 65 ≤ n ∧ n ≤ 90 then some (n - 65 + 10)
  else none

/-- Whether a character is a digit of radix `R`. -/
def isRadixDigit (R : Nat) (c : Char) : Bool :=
  match digitValue c with
  | some d => decide (d < R)
  | none => false

/-- The function `Number.parseInt(s)` without a radix argument; `none` is
`NaN`.  Leading white space is skipped, a sign is read, a `0x`/`0X` prefix
selects radix 16, and the longest prefix of digits is converted. -/
def parseInt (s : String) : Option Int :=
  let S := s.data.dropWhile isStrWhiteSpaceChar
  let signed : Int × List Char :=
    match S with
    | '-' :: r => (-1, r)
    | '+' :: r => (1, r)
    | _ => (1, S)
  let radixed : Nat × List Char :=
    match signed.2 with
    | '0' :: 'x' :: r => (16, r)
    | '0' :: 'X' :: r => (16, r)
    | _ => (10, signed.2)
  let Z := radixed.2.takeWhile (isRadixDigit radixed.1)
  if Z = [] then none
  else some (signed.1 *
    ((Z.foldl (fun acc c => acc * radixed.1 + (digitValue c).getD 0) 0 : Nat) : Int))

/-! ## Data model -/

/-- The configuration record of `config.json`.  The field `prefix` of the
source is named `commandPrefix` here, `prefix` being a reserved word. -/
structure Config where
  token : String
  commandPrefix : String
  apiUrl : String
  logChannelId : Option String
  deriving DecidableEq, Repr

/-- A registered link as returned by `GET /links`. -/
structure Link where
  id : JSVal
  name : JSVal
  url : JSVal
  status : JSVal
  deriving DecidableEq, Repr

/-- A profile as returned by `GET /profiles`. -/
structure Profile where
  id : JSVal
  name : JSVal
  path : String
  deriving DecidableEq, Repr

/-- An element of `active_links` in the response of `GET /status`. -/
structure ActiveLinkSummary where
  id : JSVal
  name : JSVal
  url : JSVal
  profile_id : JSVal
  profile_name : JSVal
  deriving DecidableEq, Repr

/-- A response body of the control-plane API: the `success`/`message`
envelope and the payload fields read by some handler. -/
structure ApiResult where
  success : Bool
  message : JSVal
  links : List Link
  profiles : List Profile
  logs : List String
  active_count : Int
  total_count : JSVal
  check_interval : JSVal
  active_links : List ActiveLinkSummary
  last_status_check : Int
  deriving DecidableEq, Repr

/-- The object `{ success: false, message: m }`. -/
def ApiResult.failure (m : String) : ApiResult :=
  { success := false, message := .str m, links := [], profiles := [], logs := [],
    active_count := 0, total_count := .undefined, check_interval := .undefined,
    active_links := [], last_status_check := 0 }

/-- The object `{ success: true, message: m }`. -/
def ApiResult.ok (m : String) : ApiResult :=
  { ApiResult.failure m with success := true }

/-- HTTP verbs used by the API client. -/
inductive Method where
  | GET | POST | PUT | DELETE
  deriving DecidableEq, Repr

/-- An HTTP request issued through `axios`: verb, URL and the JSON object sent
as the body (`none` when no body is passed), as an ordered list of keys. -/
structure Request where
  method : Method
  url : String
  body : Option (List (String × JSVal))
  deriving DecidableEq, Repr

/-- One field of an embed. -/
structure EmbedField where
  name : String
  value : String
  inline : Option Bool
  deriving DecidableEq, Repr

/-- The state of an `EmbedBuilder`. -/
structure EmbedBuilder where
  title : Option String
  color : Option String
  description : Option String
  fields : List EmbedField
  timestamp : Bool
  deriving DecidableEq, Repr

/-- The constructor call `new EmbedBuilder()`. -/
def EmbedBuilder.new : EmbedBuilder :=
  { title := none, color := none, description := none, fields := [], timestamp := false }

/-- The method `setTitle`. -/
def EmbedBuilder.setTitle (e : EmbedBuilder) (t : String) : EmbedBuilder :=
  { e with title := some t }

/-- The method `setColor`. -/
def EmbedBuilder.setColor (e : EmbedBuilder) (c : String) : EmbedBuilder :=
  { e with color := some c }

/-- The method `setDescription`. -/
def EmbedBuilder.setDescription (e : EmbedBuilder) (d : String) : EmbedBuilder :=
  { e with description := some d }

/-- The method `setTimestamp()`: stamps the embed with the current time. -/
def EmbedBuilder.setTimestamp (e : EmbedBuilder) : EmbedBuilder :=
  { e with timestamp := true }

/-- The method `addFields(...fs)`: appends the given fields in order. -/
def EmbedBuilder.addFields (e : EmbedBuilder) (fs : List EmbedField) : EmbedBuilder :=
  { e with fields := e.fields ++ fs }

/-- The argument of `message.reply`: a plain text or `{ embeds: [...] }`. -/
inductive ReplyContent where
  | text (s : String) : ReplyContent
  | embeds (es : List EmbedBuilder) : ReplyContent
  deriving DecidableEq, Repr

/-- An incoming chat message. -/
structure Message where
  authorBot : Bool
  content : String
  channelId : String
  deriving DecidableEq, Repr

/-- An externally visible action of a handler. -/
inductive Effect where
  | apiCall (r : Request) : Effect
  | reply (c : ReplyContent) : Effect
  | setLogChannelId (id : String) : Effect
  | writeConfig (c : Config) : Effect
  deriving DecidableEq, Repr

/-- The surroundings of one invocation: the configuration, the outcome of an
HTTP request (`none`: `axios` throws, for a refused connection, a timeout or
a non-2xx status), whether `fs.writeFileSync` succeeds, and the two
locale-dependent runtime functions. -/
structure Env where
  config : Config
  http : Request → Option ApiResult
  writeFileSync : Config → Bool
  toLowerCase : String → String
  toLocaleString : Int → String

/-- The HTTP requests of a trace, in order. -/
def apiCalls : List Effect → List Request
  | [] => []
  | .apiCall r :: es => r :: apiCalls es
  | _ :: es => apiCalls es

/-- The replies of a trace, in order. -/
def replies : List Effect → List ReplyContent
  | [] => []
  | .reply c :: es => c :: replies es
  | _ :: es => replies es

/-! ## API client -/

/-- The message of the result that every API method returns when the HTTP call
throws. -/
def connectivityMessage : String := "API ile iletişim kurulamadı"

/-- The body shared by all API methods: `try { return (await axios…).data }
catch { return { success: false, message: … } }`.  The request is recorded in
the trace whether or not it succeeds. -/
def attempt (env : Env) (req : Request) : List Effect × ApiResult :=
  ([.apiCall req],
    match env.http req with
    | some data => data
    | none => ApiResult.failure connectivityMessage)

/-- The method `api.getStatus()`. -/
def api.getStatus (env : Env) : List Effect × ApiResult :=
  attempt env ⟨.GET, env.config.apiUrl ++ "/status", none⟩

/-- The method `api.getLinks()`. -/
def api.getLinks (env : Env) : List Effect × ApiResult :=
  attempt env ⟨.GET, env.config.apiUrl ++ "/links", none⟩

/-- A parameter default `p = d`: it applies when the argument is omitted,
that is `undefined`. -/
def orDefault (v d : JSVal) : JSVal :=
  if v = .undefined then d else v

/-- The method `api.startLink(link, profileId = null, allProfiles = false)`. -/
def api.startLink (env : Env) (link profileId allProfiles : JSVal) : List Effect × ApiResult :=
  let profileId := orDefault profileId .null
  let allProfiles := orDefault allProfiles (.bool false)
  attempt env ⟨.POST, env.config.apiUrl ++ "/start",
    some [("link", link), ("profile_id", profileId), ("all_profiles", allProfiles)]⟩

/-- The method `api.stopLink(link = null, profileId = null)`. -/
def api.stopLink (env : Env) (link profileId : JSVal) : List Effect × ApiResult :=
  let link := orDefault link .null
  let profileId := orDefault profileId .null
  attempt env ⟨.POST, env.config.apiUrl ++ "/stop",
    some [("link", link), ("profile_id", profileId)]⟩

/-- The method `api.addLink(url, name = null)`. -/
def api.addLink (env : Env) (url name : JSVal) : List Effect × ApiResult :=
  let name := orDefault name .null
  attempt env ⟨.POST, env.config.apiUrl ++ "/links", some [("url", url), ("name", name)]⟩

/-- The method `api.removeLink(link)`. -/
def api.removeLink (env : Env) (link : JSVal) : List Effect × ApiResult :=
  attempt env ⟨.DELETE, env.config.apiUrl ++ "/links", some [("link", link)]⟩

/-- The method `api.setInterval(minutes)`. -/
def api.setInterval (env : Env) (minutes : JSVal) : List Effect × ApiResult :=
  attempt env ⟨.PUT, env.config.apiUrl ++ "/interval", some [("minutes", minutes)]⟩

/-- The method `api.restart()`. -/
def api.restart (env : Env) : List Effect × ApiResult :=
  attempt env ⟨.POST, env.config.apiUrl ++ "/restart", none⟩

/-- The method `api.reposition()`. -/
def api.reposition (env : Env) : List Effect × ApiResult :=
  attempt env ⟨.POST, env.config.apiUrl ++ "/reposition", none⟩

/-- The method `api.getProfiles()`. -/
def api.getProfiles (env : Env) : List Effect × ApiResult :=
  attempt env ⟨.GET, env.config.apiUrl ++ "/profiles", none⟩

/-- The method `api.getLogs(lines = 10)`; the handler always passes `lines`. -/
def api.getLogs (env : Env) (lines : Int) : List Effect × ApiResult :=
  attempt env ⟨.GET, env.config.apiUrl ++ "/logs?lines=" ++ toString lines, none⟩

/-- The method `api.openLink(link, profileId)`. -/
def api.openLink (env : Env) (link : JSVal) (profileId : JSVal) : List Effect × ApiResult :=
  attempt env ⟨.POST, env.config.apiUrl ++ "/open",
    some [("link", link), ("profile_id", profileId)]⟩

/-! ## Command handlers -/

/-- The tail shared by the plain-text handlers:
`if (response.success) reply("✅ " + message) else reply("❌ Hata: " + message)`. -/
def replyResult (response : ApiResult) : Effect :=
  if response.success then .reply (.text ("✅ " ++ response.message.toStr))
  else .reply (.text ("❌ Hata: " ++ response.message.toStr))

/-- The reply `❌ Hata: ${response.message}`. -/
def replyFailure (response : ApiResult) : Effect :=
  .reply (.text ("❌ Hata: " ++ response.message.toStr))

/-- The status line of a link in `handleLinksCommand`. -/
def linkStatusLine (status : JSVal) : String :=
  if status = .str "active" then "🟢 Aktif"
  else if status = .str "error" then "🔴 Hata"
  else "⚪ Pasif"

/-- The function `handleLinksCommand(message)`. -/
def handleLinksCommand (env : Env) (_message : Message) : List Effect :=
  let (tr, response) := api.getLinks env
  if !response.success then tr ++ [replyFailure response]
  else if response.links.length = 0 then tr ++ [.reply (.text "📋 Kayıtlı link bulunmuyor.")]
  else
    let embed := (((EmbedBuilder.new.setTitle "📋 Kayıtlı Linkler").setColor "#0099ff").setDescription
      "Aşağıdaki linkler sisteme kayıtlıdır:").setTimestamp
    let embed := response.links.foldl (fun (embed : EmbedBuilder) link =>
      let status := linkStatusLine link.status
      embed.addFields [{ name := link.id.toStr ++ ". " ++ link.name.toStr,
                         value := status ++ "\n" ++ link.url.toStr, inline := none }]) embed
    tr ++ [.reply (.embeds [embed])]

/-- The element access `args[i]` on an array of strings. -/
def index (args : List String) (i : Nat) : JSVal :=
  match args[i]? with
  | some s => .str s
  | none => .undefined

/-- The usage reply of `handleStartCommand`. -/
def startUsage : String :=
  "❌ Hata: Link kodu veya URL belirtmelisiniz.\nÖrnek: `!start 1` (tüm profillerde) veya `!start 1 2` (sadece 2. profilde)"

/-- The function `handleStartCommand(message, args)`. -/
def handleStartCommand (env : Env) (_message : Message) (args : List String) : List Effect :=
  if args.length = 0 then [.reply (.text startUsage)]
  else
    let linkIdOrUrl := index args 0
    let (profileId, allProfiles) : JSVal × Bool :=
      if args.length > 1 then (index args 1, false) else (.null, true)
    let (tr, response) := api.startLink env linkIdOrUrl profileId (.bool allProfiles)
    tr ++ [replyResult response]

/-- The function `handleStopCommand(message, args)`. -/
def handleStopCommand (env : Env) (_message : Message) (args : List String) : List Effect :=
  let (tr, response) :=
    if args.length = 0 then api.stopLink env .undefined .undefined
    else if args.length = 1 then api.stopLink env (index args 0) .undefined
    else api.stopLink env (index args 0) (index args 1)
  tr ++ [replyResult response]

/-- The usage reply of `handleAddLinkCommand`. -/
def addLinkUsage : String :=
  "❌ Hata: URL belirtmelisiniz.\nÖrnek: `!addlink https://www.twitch.tv/example`"

/-- The function `handleAddLinkCommand(message, args)`. -/
def handleAddLinkCommand (env : Env) (_message : Message) (args : List String) : List Effect :=
  if args.length = 0 then [.reply (.text addLinkUsage)]
  else
    let url := index args 0
    let name : JSVal := if args.length > 1 then .str (join " " (args.drop 1)) else .null
    let (tr, response) := api.addLink env url name
    tr ++ [replyResult response]

/-- The usage reply of `handleRemoveLinkCommand`. -/
def removeLinkUsage : String :=
  "❌ Hata: Link kodu veya URL belirtmelisiniz.\nÖrnek: `!removelink 1` veya `!removelink https://www.twitch.tv/example`"

/-- The function `handleRemoveLinkCommand(message, args)`. -/
def handleRemoveLinkCommand (env : Env) (_message : Message) (args : List String) : List Effect :=
  if args.length = 0 then [.reply (.text removeLinkUsage)]
  else
    let linkIdOrUrl := index args 0
    let (tr, response) := api.removeLink env linkIdOrUrl
    tr ++ [replyResult response]

/-- The field that `handleStatusCommand` adds for one active link:
`{ name: "${id}. ${name}", value: "Profil: ${profile_name} (ID: ${profile_id})\n${url}",
inline: false }`. -/
def activeLinkField (link : ActiveLinkSummary) : EmbedField :=
  { name := link.id.toStr ++ ". " ++ link.name.toStr,
    value := "Profil: " ++ link.profile_name.toStr ++ " (ID: " ++ link.profile_id.toStr ++ ")\n" ++
      link.url.toStr,
    inline := some false }

/-- The function `handleStatusCommand(message)`. -/
def handleStatusCommand (env : Env) (_message : Message) : List Effect :=
  let (tr, response) := api.getStatus env
  if !response.success then tr ++ [replyFailure response]
  else
    let embed := ((((EmbedBuilder.new.setTitle "📊 Sistem Durumu").setColor "#0099ff").setDescription
      "Edge Stream Manager durumu:").addFields
        [{ name := "Aktif Link Sayısı", value := toString response.active_count, inline := some true },
         { name := "Toplam Link Sayısı", value := response.total_count.toStr, inline := some true },
         { name := "Kontrol Aralığı", value := response.check_interval.toStr ++ " dakika",
           inline := some true }]).setTimestamp
    let embed :=
      if response.active_count > 0 then
        let embed := embed.addFields [{ name := "Aktif Linkler", value := "---", inline := some false }]
        response.active_links.foldl (fun (embed : EmbedBuilder) link =>
          embed.addFields [activeLinkField link]) embed
      else embed
    let embed :=
      if response.last_status_check > 0 then
        let lastCheck := env.toLocaleString (response.last_status_check * 1000)
        embed.addFields [{ name := "Son Kontrol Zamanı", value := lastCheck, inline := some false }]
      else embed
    tr ++ [.reply (.embeds [embed])]

/-- The usage reply of `handleSetIntervalCommand`. -/
def setIntervalUsage : String :=
  "❌ Hata: Dakika değeri belirtmelisiniz.\nÖrnek: `!setinterval 5`"

/-- The function `handleSetIntervalCommand(message, args)`. -/
def handleSetIntervalCommand (env : Env) (_message : Message) (args : List String) : List Effect :=
  if args.length = 0 then [.reply (.text setIntervalUsage)]
  else
    let minutes := index args 0
    let (tr, response) := api.setInterval env minutes
    tr ++ [replyResult response]

/-- A field of the help embed, with `inline: false`. -/
def helpField (env : Env) (signature value : String) : EmbedField :=
  { name := env.config.commandPrefix ++ signature, value := value, inline := some false }

/-- The function `handleHelpCommand(message)`. -/
def handleHelpCommand (env : Env) (_message : Message) : List Effect :=
  let embed := ((((EmbedBuilder.new.setTitle "🔍 Yardım").setColor "#0099ff").setDescription
    "Kullanılabilir komutlar:").addFields
      [helpField env "links" "Kayıtlı tüm linkleri listeler",
       helpField env "start [link] [profil_id]" "Linki başlatır (profil_id yoksa tüm profillerde)",
       helpField env "stop [link] [profil_id]" "Linki durdurur (boş bırakılırsa tüm linkler)",
       helpField env "restart" "Tüm aktif linkleri yeniden başlatır",
       helpField env "reposition" "Açık pencereleri yeniden hizalar",
       helpField env "open [link] [profil_id]" "Belirtilen linki sadece belirtilen profilde açar",
       helpField env "addlink [URL] [isim]" "Yeni link ekler (isim opsiyonel)",
       helpField env "removelink [link]" "Belirtilen linki siler",
       helpField env "profiles" "Tanımlı profilleri listeler",
       helpField env "status" "Sistem durumunu gösterir",
       helpField env "log [satır_sayısı]" "Son log kayıtlarını gösterir (varsayılan: 10)",
       helpField env "setinterval [dakika]" "Kontrol aralığını değiştirir",
       helpField env "setlogchannel" "Mevcut kanalı log kanalı olarak ayarlar",
       helpField env "help" "Bu yardım mesajını gösterir"]).setTimestamp
  [.reply (.embeds [embed])]

/-- The function `handleSetLogChannelCommand(message)`: the assignment to
`config.logChannelId`, then the write of the configuration file, then the
reply of the `try` or of the `catch` branch. -/
def handleSetLogChannelCommand (env : Env) (message : Message) : List Effect :=
  let config := { env.config with logChannelId := some message.channelId }
  if env.writeFileSync config then
    [.setLogChannelId message.channelId, .writeConfig config,
     .reply (.text "✅ Bu kanal log kanalı olarak ayarlandı.")]
  else
    [.setLogChannelId message.channelId,
     .reply (.text "❌ Hata: Yapılandırma kaydedilemedi.")]

/-- The function `handleRestartCommand(message)`. -/
def handleRestartCommand (env : Env) (_message : Message) : List Effect :=
  let (tr, response) := api.restart env
  tr ++ [replyResult response]

/-- The function `handleRepositionCommand(message)`. -/
def handleRepositionCommand (env : Env) (_message : Message) : List Effect :=
  let (tr, response) := api.reposition env
  tr ++ [replyResult response]

/-- The resolved line count of `handleLogCommand`:
`args.length > 0 ? Number.parseInt(args[0]) || 10 : 10`, where `||` replaces
the falsy numbers `NaN` and `0` by `10`. -/
def resolveLines (args : List String) : Int :=
  if args.length > 0 then
    match (args[0]?).bind parseInt with
    | none => 10
    | some n => if n = 0 then 10 else n
  else 10

/-- The range error reply of `handleLogCommand`. -/
def logRangeError : String := "❌ Hata: Log satır sayısı 1-50 arasında olmalıdır."

/-- The function `handleLogCommand(message, args)`. -/
def handleLogCommand (env : Env) (_message : Message) (args : List String) : List Effect :=
  let lines := resolveLines args
  if lines < 1 ∨ lines > 50 then [.reply (.text logRangeError)]
  else
    let (tr, response) := api.getLogs env lines
    if !response.success then tr ++ [replyFailure response]
    else if response.logs.length = 0 then tr ++ [.reply (.text "📋 Log kaydı bulunmuyor.")]
    else
      let embed := (((EmbedBuilder.new.setTitle
        ("📋 Son " ++ toString response.logs.length ++ " Log Kaydı")).setColor "#0099ff").setDescription
          ("```\n" ++ join "\n" response.logs ++ "\n```")).setTimestamp
      tr ++ [.reply (.embeds [embed])]

/-- The function `handleProfilesCommand(message)`. -/
def handleProfilesCommand (env : Env) (_message : Message) : List Effect :=
  let (tr, response) := api.getProfiles env
  if !response.success then tr ++ [replyFailure response]
  else if response.profiles.length = 0 then tr ++ [.reply (.text "📋 Tanımlı profil bulunmuyor.")]
  else
    let embed := (((EmbedBuilder.new.setTitle "📋 Tanımlı Profiller").setColor "#0099ff").setDescription
      "Aşağıdaki profiller sisteme tanımlıdır:").setTimestamp
    let embed := response.profiles.foldl (fun (embed : EmbedBuilder) profile =>
      embed.addFields [{ name := profile.id.toStr ++ ". " ++ profile.name.toStr,
                         value := profile.path, inline := some false }]) embed
    tr ++ [.reply (.embeds [embed])]

/-- The usage reply of `handleOpenCommand`. -/
def openUsage : String :=
  "❌ Hata: Link kodu ve profil ID belirtmelisiniz.\nÖrnek: `!open 1 2` (1. linki 2. profilde aç)"

/-- The function `handleOpenCommand(message, args)`. -/
def handleOpenCommand (env : Env) (_message : Message) (args : List String) : List Effect :=
  if args.length < 2 then [.reply (.text openUsage)]
  else
    let linkIdOrUrl := index args 0
    let profileId := index args 1
    let (tr, response) := api.openLink env linkIdOrUrl profileId
    tr ++ [replyResult response]

/-! ## Parser and dispatcher -/

/-- The statements
`args = content.slice(prefix.length).trim().split(/ +/)` and
`command = args.shift().toLowerCase()`: the command name and the remaining
arguments.  `split` never returns an empty array, so `shift` finds a token. -/
def parseCommand (env : Env) (content : String) : String × List String :=
  let args := splitSpaces (trim (slice content env.config.commandPrefix.length))
  match args with
  | [] => (env.toLowerCase "", [])
  | first :: rest => (env.toLowerCase first, rest)

/-- The `switch (command)` of the `messageCreate` listener. -/
def dispatch (env : Env) (message : Message) (command : String) (args : List String) :
    List Effect :=
  match command with
  | "links" => handleLinksCommand env message
  | "start" => handleStartCommand env message args
  | "stop" => handleStopCommand env message args
  | "addlink" => handleAddLinkCommand env message args
  | "removelink" => handleRemoveLinkCommand env message args
  | "status" => handleStatusCommand env message
  | "setinterval" => handleSetIntervalCommand env message args
  | "help" => handleHelpCommand env message
  | "setlogchannel" => handleSetLogChannelCommand env message
  | "restart" => handleRestartCommand env message
  | "reposition" => handleRepositionCommand env message
  | "log" => handleLogCommand env message args
  | "profiles" => handleProfilesCommand env message
  | "open" => handleOpenCommand env message args
  | _ => []

/-- The listener `client.on("messageCreate", …)`. -/
def messageCreate (env : Env) (message : Message) : List Effect :=
  if message.authorBot ∨ !startsWith message.content env.config.commandPrefix then []
  else
    let (command, args) := parseCommand env message.content
    dispatch env message command args

/-! ## Sample surroundings used by the concrete instances -/

/-- An ASCII-only `toLowerCase`, which agrees with the runtime function on
ASCII text. -/
def asciiLower (s : String) : String := ⟨s.data.map Char.toLower⟩

/-- The default configuration that `bot.js` writes when `config.json` is
missing. -/
def defaultConfig : Config :=
  { token := "DISCORD_BOT_TOKEN_HERE", commandPrefix := "!", apiUrl := "http://localhost:5000",
    logChannelId := none }

/-- Surroundings with the default configuration, a given HTTP behaviour, a
writable configuration file, and a fixed date format. -/
def sampleEnv (http : Request → Option ApiResult) : Env :=
  { config := defaultConfig, http := http, writeFileSync := fun _ => true,
    toLowerCase := asciiLower, toLocaleString := fun ms => toString ms }

/-- A remote service that cannot be reached. -/
def unreachable : Request → Option ApiResult := fun _ => none

/-- A remote service that answers every request with `r`. -/
def answering (r : ApiResult) : Request → Option ApiResult := fun _ => some r

/-- A message of a human author in channel `"42"`. -/
def userMessage (content : String) : Message :=
  { authorBot := false, content := content, channelId := "42" }

/-! ## Statements of the specification used for comparison -/

/-- The body of the `POST /stop` request as the specification words it: `{}`
for no argument, `{link}` for one, `{link, profile}` for two. -/
def specStopBody : List String → List (String × JSVal)
  | [] => []
  | [link] => [("link", .str link)]
  | link :: profile :: _ => [("link", .str link), ("profile", .str profile)]

/-- The commands with required arguments: name, number of required arguments
and usage reply. -/
def requiredArgs : List (String × Nat × String) :=
  [("start", 1, startUsage), ("addlink", 1, addLinkUsage), ("removelink", 1, removeLinkUsage),
   ("setinterval", 1, setIntervalUsage), ("open", 2, openUsage)]

/-- The fourteen command names of the `switch`. -/
def registeredNames : List String :=
  ["links", "start", "stop", "addlink", "removelink", "status", "setinterval", "help",
   "setlogchannel", "restart", "reposition", "log", "profiles", "open"]

/-- The tokens of a text for a notion of separator, as the specification words
the parsing rule: the text is cut at every separator character and the empty
pieces (between two adjacent separators, or at either end) are dropped, which
leaves the maximal runs of non-separator characters. -/
def tokensBy (isSep : Char → Bool) (l : List Char) : List String :=
  ((l.splitOnP isSep).filter (fun t => t ≠ [])).map String.mk

/-- The parsing rule of the specification for a notion of separator: strip the
command prefix, trim, take the tokens; the lower-cased first token is the
command name (the empty name when there is no token) and the remaining tokens
are the arguments. -/
def specParse (isSep : Char → Bool) (env : Env) (content : String) : String × List String :=
  match tokensBy isSep (trimChars (content.data.drop env.config.commandPrefix.length)) with
  | [] => (env.toLowerCase "", [])
  | first :: rest => (env.toLowerCase first, rest)

/-- The separator of `split(/ +/)`: the space character U+0020 only. -/
def isSpace (c : Char) : Bool := c = ' '

/-- The request that `addlink` is specified to issue for the arguments
`url :: rest`: `POST /links` with `url` and with the remaining arguments joined
by single spaces as `name`, or `null` when there is none. -/
def specAddLinkRequest (env : Env) (url : String) (rest : List String) : Request :=
  ⟨.POST, env.config.apiUrl ++ "/links",
    some [("url", .str url),
      ("name", match rest with
        | [] => .null
        | _ :: _ => .str (" ".intercalate rest))]⟩

/-- The request of `status`. -/
def statusRequest (env : Env) : Request := ⟨.GET, env.config.apiUrl ++ "/status", none⟩

/-- The fields of the status embed as the specification lists them: the three
fixed fields; if `active_count > 0` a separator and one field per active
link; if `last_status_check > 0` the time of the last check. -/
def specStatusFields (env : Env) (r : ApiResult) : List EmbedField :=
  [{ name := "Aktif Link Sayısı", value := toString r.active_count, inline := some true },
   { name := "Toplam Link Sayısı", value := r.total_count.toStr, inline := some true },
   { name := "Kontrol Aralığı", value := r.check_interval.toStr ++ " dakika", inline := some true }]
  ++ (if r.active_count > 0 then
        { name := "Aktif Linkler", value := "---", inline := some false } ::
          r.active_links.map activeLinkField
      else [])
  ++ (if r.last_status_check > 0 then
        [{ name := "Son Kontrol Zamanı", value := env.toLocaleString (r.last_status_check * 1000),
           inline := some false }]
      else [])

/-- The contract of an API method towards its caller, for the outcome `out`
of one call (trace and returned result): the method issues exactly one HTTP
request, and if that request fails in transport the method still returns a
result, which has `success = false` and a non-empty string as `message`. -/
def NormalisesTransportFailure (env : Env) (out : List Effect × ApiResult) : Prop :=
  (∃ req, out.1 = [.apiCall req]) ∧
    ∀ req, out.1 = [.apiCall req] → env.http req = none →
      out.2.success = false ∧ ∃ m : String, out.2.message = .str m ∧ m ≠ ""

/-- The result that an API method returns for the request `req`: the response
body, or the connectivity failure when the transport fails. -/
def resultOf (env : Env) (req : Request) : ApiResult := (attempt env req).2

/-- The request of `links`. -/
def linksRequest (env : Env) : Request := ⟨.GET, env.config.apiUrl ++ "/links", none⟩

/-- The status line of a link as the specification lists it: 🟢 for the status
`active`, 🔴 for the status `error`, ⚪ for any other status. -/
def specStatusLine : JSVal → String
  | .str "active" => "🟢 Aktif"
  | .str "error" => "🔴 Hata"
  | _ => "⚪ Pasif"

/-- The field of one link as the specification describes it: named
`"<id>. <name>"`, the value is the status line followed by a newline and the
URL. -/
def specLinkField (link : Link) : EmbedField :=
  { name := link.id.toStr ++ ". " ++ link.name.toStr,
    value := specStatusLine link.status ++ "\n" ++ link.url.toStr,
    inline := none }

/-- The embeds among the replies of a trace, in order. -/
def embedsOf : List ReplyContent → List EmbedBuilder
  | [] => []
  | .embeds es :: cs => es ++ embedsOf cs
  | .text _ :: cs => embedsOf cs

/-! ## Basic facts about traces and the API client -/

@[simp] theorem apiCalls_nil : apiCalls [] = [] := rfl

@[simp] theorem apiCalls_apiCall (r : Request) (es : List Effect) :
    apiCalls (.apiCall r :: es) = r :: apiCalls es := rfl

@[simp] theorem apiCalls_reply (c : ReplyContent) (es : List Effect) :
    apiCalls (.reply c :: es) = apiCalls es := rfl

@[simp] theorem apiCalls_setLogChannelId (c : String) (es : List Effect) :
    apiCalls (.setLogChannelId c :: es) = apiCalls es := rfl

@[simp] theorem apiCalls_writeConfig (c : Config) (es : List Effect) :
    apiCalls (.writeConfig c :: es) = apiCalls es := rfl

@[simp] theorem replies_nil : replies [] = [] := rfl

@[simp] theorem replies_apiCall (r : Request) (es : List Effect) :
    replies (.apiCall r :: es) = replies es := rfl

@[simp] theorem replies_reply (c : ReplyContent) (es : List Effect) :
    replies (.reply c :: es) = c :: replies es := rfl

@[simp] theorem replies_setLogChannelId (c : String) (es : List Effect) :
    replies (.setLogChannelId c :: es) = replies es := rfl

@[simp] theorem replies_writeConfig (c : Config) (es : List Effect) :
    replies (.writeConfig c :: es) = replies es := rfl

@[simp] theorem apiCalls_append (xs ys : List Effect) :
    apiCalls (xs ++ ys) = apiCalls xs ++ apiCalls ys := by
  induction xs with
  | nil => rfl
  | cons e es ih => cases e <;> simp [apiCalls, ih]

@[simp] theorem replies_append (xs ys : List Effect) :
    replies (xs ++ ys) = replies xs ++ replies ys := by
  induction xs with
  | nil => rfl
  | cons e es ih => cases e <;> simp [replies, ih]

@[simp] theorem attempt_fst (env : Env) (req : Request) : (attempt env req).1 = [.apiCall req] := rfl

@[simp] theorem replies_replyResult (r : ApiResult) (es : List Effect) :
    replies (replyResult r :: es) =
      .text ((if r.success then "✅ " else "❌ Hata: ") ++ r.message.toStr) :: replies es := by
  unfold replyResult
  cases r.success <;> simp

@[simp] theorem apiCalls_replyResult (r : ApiResult) (es : List Effect) :
    apiCalls (replyResult r :: es) = apiCalls es := by
  unfold replyResult
  cases r.success <;> simp

@[simp] theorem replies_replyFailure (r : ApiResult) (es : List Effect) :
    replies (replyFailure r :: es) = .text ("❌ Hata: " ++ r.message.toStr) :: replies es := rfl

@[simp] theorem apiCalls_replyFailure (r : ApiResult) (es : List Effect) :
    apiCalls (replyFailure r :: es) = apiCalls es := rfl

/-- The range check of `handleLogCommand` on the resolved count: outside
`[1, 50]` the only effect is the range error reply. -/
theorem handleLogCommand_out_of_range (env : Env) (msg : Message) (args : List String)
    (h : resolveLines args < 1 ∨ resolveLines args > 50) :
    handleLogCommand env msg args = [.reply (.text logRangeError)] := by
  simp only [handleLogCommand]
  rw [if_pos h]

/-- The range check of `handleLogCommand` on the resolved count: inside
`[1, 50]` the handler calls `get-logs` once with that count and replies once. -/
theorem handleLogCommand_in_range (env : Env) (msg : Message) (args : List String)
    (h : 1 ≤ resolveLines args ∧ resolveLines args ≤ 50) :
    apiCalls (handleLogCommand env msg args) =
        [⟨.GET, env.config.apiUrl ++ "/logs?lines=" ++ toString (resolveLines args), none⟩] ∧
      (replies (handleLogCommand env msg args)).length = 1 := by
  have hn : ¬ (resolveLines args < 1 ∨ resolveLines args > 50) := by omega
  simp only [handleLogCommand]
  rw [if_neg hn]
  simp only [api.getLogs, attempt]
  split_ifs <;> simp

/-! ## C1: the line count of `log` -/

/-- C1, evaluated at the argument list `["0"]`: `parseInt` reads the integer
`0`, the resolved count is nevertheless `10`, and the handler does not reply
with the range error but requests ten log lines; the count `51` is rejected
without an API call, and the counts `1` and `50` are requested as given. -/
theorem log_count_zero_is_requested_as_ten (env : Env) (msg : Message) :
    parseInt "0" = some 0 ∧ resolveLines ["0"] = 10 ∧
      handleLogCommand env msg ["0"] ≠ [.reply (.text logRangeError)] ∧
      apiCalls (handleLogCommand env msg ["0"]) =
        [⟨.GET, env.config.apiUrl ++ "/logs?lines=" ++ "10", none⟩] ∧
      handleLogCommand env msg ["51"] = [.reply (.text logRangeError)] ∧
      apiCalls (handleLogCommand env msg ["1"]) =
        [⟨.GET, env.config.apiUrl ++ "/logs?lines=" ++ "1", none⟩] ∧
      apiCalls (handleLogCommand env msg ["50"]) =
        [⟨.GET, env.config.apiUrl ++ "/logs?lines=" ++ "50", none⟩] := by
  have h0 : resolveLines ["0"] = 10 := by decide
  have h51 : resolveLines ["51"] = 51 := by decide
  have h1 : resolveLines ["1"] = 1 := by decide
  have h50 : resolveLines ["50"] = 50 := by decide
  have c0 := handleLogCommand_in_range env msg ["0"] (by rw [h0]; decide)
  have c1 := handleLogCommand_in_range env msg ["1"] (by rw [h1]; decide)
  have c50 := handleLogCommand_in_range env msg ["50"] (by rw [h50]; decide)
  rw [h0, show toString (10 : Int) = "10" by decide] at c0
  rw [h1, show toString (1 : Int) = "1" by decide] at c1
  rw [h50, show toString (50 : Int) = "50" by decide] at c50
  refine ⟨by decide, h0, ?_, c0.1, ?_, c1.1, c50.1⟩
  · intro hEq
    have := c0.1
    rw [hEq] at this
    simp at this
  · exact handleLogCommand_out_of_range env msg ["51"] (by rw [h51]; decide)

/-! ## C2: the request of `stop` -/

/-- C2 as stated fails: with no argument the body of the `POST /stop` request
is not the empty object, with one argument it is not `{link}` alone, and with
two arguments its second key is not `profile`. -/
theorem stop_body_is_not_the_spec_body :
    (apiCalls (handleStopCommand (sampleEnv unreachable) (userMessage "!stop") [])).map
        Request.body ≠ [some (specStopBody [])] ∧
      (apiCalls (handleStopCommand (sampleEnv unreachable) (userMessage "!stop 1") ["1"])).map
        Request.body ≠ [some (specStopBody ["1"])] ∧
      (apiCalls (handleStopCommand (sampleEnv unreachable) (userMessage "!stop 1 2") ["1", "2"])).map
        Request.body ≠ [some (specStopBody ["1", "2"])] := by
  decide

/-- C2, amended: for every argument list `stop` issues exactly one request,
`POST /stop`, whose body always carries the two keys `link` and `profile_id`:
both `null` without arguments, `link = args[0]` and `profile_id = null` with
one argument, `link = args[0]` and `profile_id = args[1]` with two or more. -/
theorem stop_posts_link_and_profile_id (env : Env) (msg : Message) :
    apiCalls (handleStopCommand env msg []) =
        [⟨.POST, env.config.apiUrl ++ "/stop", some [("link", .null), ("profile_id", .null)]⟩] ∧
      (∀ link : String, apiCalls (handleStopCommand env msg [link]) =
        [⟨.POST, env.config.apiUrl ++ "/stop",
          some [("link", .str link), ("profile_id", .null)]⟩]) ∧
      (∀ (link profile : String) (rest : List String),
        apiCalls (handleStopCommand env msg (link :: profile :: rest)) =
          [⟨.POST, env.config.apiUrl ++ "/stop",
            some [("link", .str link), ("profile_id", .str profile)]⟩]) := by
  refine ⟨?_, ?_, ?_⟩
  · simp [handleStopCommand, api.stopLink, orDefault, attempt]
  · intro link
    simp [handleStopCommand, api.stopLink, orDefault, attempt, index]
  · intro link profile rest
    simp [handleStopCommand, api.stopLink, orDefault, attempt, index]

/-! ## C3: the request of `start` -/

/-- C3: for every non-empty argument list `start` issues exactly one request,
`POST /start`, with `link = args[0]`; a single argument gives
`profile_id = null` and `all_profiles = true`, two (or more) arguments give
`profile_id = args[1]` and `all_profiles = false`. -/
theorem start_posts_link_profile_and_flag (env : Env) (msg : Message) (link : String) :
    apiCalls (handleStartCommand env msg [link]) =
        [⟨.POST, env.config.apiUrl ++ "/start",
          some [("link", .str link), ("profile_id", .null), ("all_profiles", .bool true)]⟩] ∧
      (∀ (profile : String) (rest : List String),
        apiCalls (handleStartCommand env msg (link :: profile :: rest)) =
          [⟨.POST, env.config.apiUrl ++ "/start",
            some [("link", .str link), ("profile_id", .str profile),
              ("all_profiles", .bool false)]⟩]) := by
  refine ⟨?_, ?_⟩
  · simp [handleStartCommand, api.startLink, orDefault, attempt, index]
  · intro profile rest
    simp [handleStartCommand, api.startLink, orDefault, attempt, index]

/-! ## C4: missing required arguments -/

/-- C4: dispatching a command that requires `N` arguments with fewer than `N`
produces one effect only, the reply with the usage message of the command, so
one reply and no API call; and the message `!open 3` is answered with the
usage message of `open` whatever the remote service would do. -/
theorem missing_arguments_yield_usage (env : Env) (msg : Message) (cmd usage : String) (N : Nat)
    (args : List String) (hcmd : (cmd, N, usage) ∈ requiredArgs) (hlen : args.length < N) :
    dispatch env msg cmd args = [.reply (.text usage)] ∧
      replies (dispatch env msg cmd args) = [.text usage] ∧
      apiCalls (dispatch env msg cmd args) = [] ∧
      (∀ http, messageCreate (sampleEnv http) (userMessage "!open 3") =
        [.reply (.text openUsage)]) := by
  have key : dispatch env msg cmd args = [.reply (.text usage)] := by
    simp only [requiredArgs, List.mem_cons, Prod.mk.injEq, List.mem_singleton,
      List.not_mem_nil, or_false] at hcmd
    rcases hcmd with ⟨rfl, rfl, rfl⟩ | ⟨rfl, rfl, rfl⟩ | ⟨rfl, rfl, rfl⟩ | ⟨rfl, rfl, rfl⟩ |
      ⟨rfl, rfl, rfl⟩
    · have h0 : args.length = 0 := by omega
      simp [dispatch, handleStartCommand, h0]
    · have h0 : args.length = 0 := by omega
      simp [dispatch, handleAddLinkCommand, h0]
    · have h0 : args.length = 0 := by omega
      simp [dispatch, handleRemoveLinkCommand, h0]
    · have h0 : args.length = 0 := by omega
      simp [dispatch, handleSetIntervalCommand, h0]
    · simp [dispatch, handleOpenCommand, hlen]
  refine ⟨key, ?_, ?_, ?_⟩
  · rw [key]; rfl
  · rw [key]; rfl
  · intro http
    rfl

/-- C4 at the command `open` with the single argument `3`. -/
theorem missing_arguments_yield_usage_witness :
    dispatch (sampleEnv unreachable) (userMessage "!open 3") "open" ["3"] =
        [.reply (.text openUsage)] ∧
      replies (dispatch (sampleEnv unreachable) (userMessage "!open 3") "open" ["3"]) =
        [.text openUsage] ∧
      apiCalls (dispatch (sampleEnv unreachable) (userMessage "!open 3") "open" ["3"]) = [] ∧
      (∀ http, messageCreate (sampleEnv http) (userMessage "!open 3") =
        [.reply (.text openUsage)]) :=
  missing_arguments_yield_usage (sampleEnv unreachable) (userMessage "!open 3") "open" openUsage 2
    ["3"] (by decide) (by decide)

/-! ## C5: unknown commands -/

/-- The `switch` has no `default` branch: a command name outside the fourteen
registered names has no effect. -/
theorem dispatch_unknown (env : Env) (msg : Message) (cmd : String) (args : List String)
    (h : cmd ∉ registeredNames) : dispatch env msg cmd args = [] := by
  simp only [registeredNames, List.mem_cons, List.mem_singleton, List.not_mem_nil, or_false,
    not_or] at h
  unfold dispatch
  split <;> first | rfl | (exfalso; simp_all)

/-- C5: a message whose command name (the lower-cased first token after the
command prefix) is not one of the fourteen registered names has no effect at
all: no reply and no API call; so for `!foobar`, whatever the remote service
would do. -/
theorem unknown_command_is_ignored (env : Env) (msg : Message)
    (hbot : msg.authorBot = false)
    (hpre : startsWith msg.content env.config.commandPrefix = true)
    (hcmd : (parseCommand env msg.content).1 ∉ registeredNames) :
    messageCreate env msg = [] ∧ replies (messageCreate env msg) = [] ∧
      apiCalls (messageCreate env msg) = [] ∧
      (∀ http, messageCreate (sampleEnv http) (userMessage "!foobar") = []) := by
  have key : messageCreate env msg = [] := by
    simp only [messageCreate, hbot, hpre]
    simpa using dispatch_unknown env msg _ _ hcmd
  refine ⟨key, ?_, ?_, ?_⟩
  · rw [key]; rfl
  · rw [key]; rfl
  · intro http
    rfl

/-- C5 at the message `!foobar`. -/
theorem unknown_command_is_ignored_witness :
    messageCreate (sampleEnv unreachable) (userMessage "!foobar") = [] ∧
      replies (messageCreate (sampleEnv unreachable) (userMessage "!foobar")) = [] ∧
      apiCalls (messageCreate (sampleEnv unreachable) (userMessage "!foobar")) = [] ∧
      (∀ http, messageCreate (sampleEnv http) (userMessage "!foobar") = []) :=
  unknown_command_is_ignored (sampleEnv unreachable) (userMessage "!foobar") (by decide)
    (by decide) (by decide)

/-! ## C6: one reply per invocation -/

/-- The handler of `links` replies once. -/
theorem handleLinksCommand_one_reply (env : Env) (msg : Message) :
    (replies (handleLinksCommand env msg)).length = 1 := by
  simp only [handleLinksCommand, api.getLinks, attempt]
  split_ifs <;> simp

/-- The handler of `start` replies once. -/
theorem handleStartCommand_one_reply (env : Env) (msg : Message) (args : List String) :
    (replies (handleStartCommand env msg args)).length = 1 := by
  simp only [handleStartCommand, api.startLink, attempt]
  split_ifs <;> simp

/-- The handler of `stop` replies once. -/
theorem handleStopCommand_one_reply (env : Env) (msg : Message) (args : List String) :
    (replies (handleStopCommand env msg args)).length = 1 := by
  simp only [handleStopCommand, api.stopLink, attempt]
  split_ifs <;> simp

/-- The handler of `addlink` replies once. -/
theorem handleAddLinkCommand_one_reply (env : Env) (msg : Message) (args : List String) :
    (replies (handleAddLinkCommand env msg args)).length = 1 := by
  simp only [handleAddLinkCommand, api.addLink, attempt]
  split_ifs <;> simp

/-- The handler of `removelink` replies once. -/
theorem handleRemoveLinkCommand_one_reply (env : Env) (msg : Message) (args : List String) :
    (replies (handleRemoveLinkCommand env msg args)).length = 1 := by
  simp only [handleRemoveLinkCommand, api.removeLink, attempt]
  split_ifs <;> simp

/-- The handler of `status` replies once. -/
theorem handleStatusCommand_one_reply (env : Env) (msg : Message) :
    (replies (handleStatusCommand env msg)).length = 1 := by
  simp only [handleStatusCommand, api.getStatus, attempt]
  split_ifs <;> simp

/-- The handler of `setinterval` replies once. -/
theorem handleSetIntervalCommand_one_reply (env : Env) (msg : Message) (args : List String) :
    (replies (handleSetIntervalCommand env msg args)).length = 1 := by
  simp only [handleSetIntervalCommand, api.setInterval, attempt]
  split_ifs <;> simp

/-- The handler of `setlogchannel` replies once, whether or not the
configuration file can be written. -/
theorem handleSetLogChannelCommand_one_reply (env : Env) (msg : Message) :
    (replies (handleSetLogChannelCommand env msg)).length = 1 := by
  simp only [handleSetLogChannelCommand]
  split_ifs <;> simp

/-- The handler of `log` replies once. -/
theorem handleLogCommand_one_reply (env : Env) (msg : Message) (args : List String) :
    (replies (handleLogCommand env msg args)).length = 1 := by
  by_cases h : resolveLines args < 1 ∨ resolveLines args > 50
  · rw [handleLogCommand_out_of_range env msg args h]; rfl
  · exact (handleLogCommand_in_range env msg args (by omega)).2

/-- The handler of `profiles` replies once. -/
theorem handleProfilesCommand_one_reply (env : Env) (msg : Message) :
    (replies (handleProfilesCommand env msg)).length = 1 := by
  simp only [handleProfilesCommand, api.getProfiles, attempt]
  split_ifs <;> simp

/-- The handler of `open` replies once. -/
theorem handleOpenCommand_one_reply (env : Env) (msg : Message) (args : List String) :
    (replies (handleOpenCommand env msg args)).length = 1 := by
  simp only [handleOpenCommand, api.openLink, attempt]
  split_ifs <;> simp

/-- Every call of `attempt` meets the contract of an API method. -/
theorem attempt_normalises (env : Env) (req : Request) :
    NormalisesTransportFailure env (attempt env req) := by
  refine ⟨⟨req, rfl⟩, ?_⟩
  intro req' h hnone
  simp only [attempt, List.cons.injEq, Effect.apiCall.injEq, and_true] at h
  subst h
  simp only [attempt, hnone]
  exact ⟨rfl, connectivityMessage, rfl, by decide⟩

/-- A plain-text handler trace `[request, replyResult]` reports a failing
result with the failure text. -/
theorem failure_reply_of_plain (env : Env) (req0 req : Request) (m : String)
    (hcall : apiCalls ((attempt env req0).1 ++ [replyResult (attempt env req0).2]) = [req])
    (hfail : (resultOf env req).success = false) (hmsg : (resultOf env req).message = .str m) :
    replies ((attempt env req0).1 ++ [replyResult (attempt env req0).2]) =
      [.text ("❌ Hata: " ++ m)] := by
  simp only [attempt_fst, List.singleton_append, apiCalls_apiCall, apiCalls_replyResult,
    apiCalls_nil, List.cons.injEq, and_true] at hcall
  subst hcall
  simp only [resultOf] at hfail hmsg
  simp [hfail, hmsg, JSVal.toStr]

/-- The handler of `start` reports a failing API result with the failure text. -/
theorem handleStartCommand_failure (env : Env) (msg : Message) (args : List String)
    (req : Request) (m : String)
    (hcall : apiCalls (handleStartCommand env msg args) = [req])
    (hfail : (resultOf env req).success = false) (hmsg : (resultOf env req).message = .str m) :
    replies (handleStartCommand env msg args) = [.text ("❌ Hata: " ++ m)] := by
  simp only [handleStartCommand, api.startLink] at hcall ⊢
  split_ifs at hcall ⊢ <;>
    first
    | exact failure_reply_of_plain env _ req m hcall hfail hmsg
    | (simp at hcall)

/-- The handler of `stop` reports a failing API result with the failure text. -/
theorem handleStopCommand_failure (env : Env) (msg : Message) (args : List String)
    (req : Request) (m : String)
    (hcall : apiCalls (handleStopCommand env msg args) = [req])
    (hfail : (resultOf env req).success = false) (hmsg : (resultOf env req).message = .str m) :
    replies (handleStopCommand env msg args) = [.text ("❌ Hata: " ++ m)] := by
  simp only [handleStopCommand, api.stopLink] at hcall ⊢
  split_ifs at hcall ⊢ <;> exact failure_reply_of_plain env _ req m hcall hfail hmsg

/-- The handler of `addlink` reports a failing API result with the failure text. -/
theorem handleAddLinkCommand_failure (env : Env) (msg : Message) (args : List String)
    (req : Request) (m : String)
    (hcall : apiCalls (handleAddLinkCommand env msg args) = [req])
    (hfail : (resultOf env req).success = false) (hmsg : (resultOf env req).message = .str m) :
    replies (handleAddLinkCommand env msg args) = [.text ("❌ Hata: " ++ m)] := by
  simp only [handleAddLinkCommand, api.addLink] at hcall ⊢
  split_ifs at hcall ⊢ <;>
    first
    | exact failure_reply_of_plain env _ req m hcall hfail hmsg
    | (simp at hcall)

/-- The handler of `removelink` reports a failing API result with the failure text. -/
theorem handleRemoveLinkCommand_failure (env : Env) (msg : Message) (args : List String)
    (req : Request) (m : String)
    (hcall : apiCalls (handleRemoveLinkCommand env msg args) = [req])
    (hfail : (resultOf env req).success = false) (hmsg : (resultOf env req).message = .str m) :
    replies (handleRemoveLinkCommand env msg args) = [.text ("❌ Hata: " ++ m)] := by
  simp only [handleRemoveLinkCommand, api.removeLink] at hcall ⊢
  split_ifs at hcall ⊢ <;>
    first
    | exact failure_reply_of_plain env _ req m hcall hfail hmsg
    | (simp at hcall)

/-- The handler of `setinterval` reports a failing API result with the failure text. -/
theorem handleSetIntervalCommand_failure (env : Env) (msg : Message) (args : List String)
    (req : Request) (m : String)
    (hcall : apiCalls (handleSetIntervalCommand env msg args) = [req])
    (hfail : (resultOf env req).success = false) (hmsg : (resultOf env req).message = .str m) :
    replies (handleSetIntervalCommand env msg args) = [.text ("❌ Hata: " ++ m)] := by
  simp only [handleSetIntervalCommand, api.setInterval] at hcall ⊢
  split_ifs at hcall ⊢ <;>
    first
    | exact failure_reply_of_plain env _ req m hcall hfail hmsg
    | (simp at hcall)

/-- The handler of `open` reports a failing API result with the failure text. -/
theorem handleOpenCommand_failure (env : Env) (msg : Message) (args : List String)
    (req : Request) (m : String)
    (hcall : apiCalls (handleOpenCommand env msg args) = [req])
    (hfail : (resultOf env req).success = false) (hmsg : (resultOf env req).message = .str m) :
    replies (handleOpenCommand env msg args) = [.text ("❌ Hata: " ++ m)] := by
  simp only [handleOpenCommand, api.openLink] at hcall ⊢
  split_ifs at hcall ⊢ <;>
    first
    | exact failure_reply_of_plain env _ req m hcall hfail hmsg
    | (simp at hcall)

/-- The handler of `restart` reports a failing API result with the failure text. -/
theorem handleRestartCommand_failure (env : Env) (msg : Message)
    (req : Request) (m : String)
    (hcall : apiCalls (handleRestartCommand env msg) = [req])
    (hfail : (resultOf env req).success = false) (hmsg : (resultOf env req).message = .str m) :
    replies (handleRestartCommand env msg) = [.text ("❌ Hata: " ++ m)] :=
  failure_reply_of_plain env _ req m hcall hfail hmsg

/-- The handler of `reposition` reports a failing API result with the failure text. -/
theorem handleRepositionCommand_failure (env : Env) (msg : Message)
    (req : Request) (m : String)
    (hcall : apiCalls (handleRepositionCommand env msg) = [req])
    (hfail : (resultOf env req).success = false) (hmsg : (resultOf env req).message = .str m) :
    replies (handleRepositionCommand env msg) = [.text ("❌ Hata: " ++ m)] :=
  failure_reply_of_plain env _ req m hcall hfail hmsg

/-- The handler of `links` reports a failing API result with the failure text. -/
theorem handleLinksCommand_failure (env : Env) (msg : Message)
    (req : Request) (m : String)
    (hcall : apiCalls (handleLinksCommand env msg) = [req])
    (hfail : (resultOf env req).success = false) (hmsg : (resultOf env req).message = .str m) :
    replies (handleLinksCommand env msg) = [.text ("❌ Hata: " ++ m)] := by
  simp only [handleLinksCommand, api.getLinks] at hcall ⊢
  have hreq : (⟨.GET, env.config.apiUrl ++ "/links", none⟩ : Request) = req := by
    split_ifs at hcall <;> simpa using hcall
  subst hreq
  simp only [resultOf] at hfail hmsg
  simp [hfail, hmsg, JSVal.toStr]

/-- The handler of `status` reports a failing API result with the failure text. -/
theorem handleStatusCommand_failure (env : Env) (msg : Message)
    (req : Request) (m : String)
    (hcall : apiCalls (handleStatusCommand env msg) = [req])
    (hfail : (resultOf env req).success = false) (hmsg : (resultOf env req).message = .str m) :
    replies (handleStatusCommand env msg) = [.text ("❌ Hata: " ++ m)] := by
  simp only [handleStatusCommand, api.getStatus] at hcall ⊢
  have hreq : (⟨.GET, env.config.apiUrl ++ "/status", none⟩ : Request) = req := by
    split_ifs at hcall <;> simpa using hcall
  subst hreq
  simp only [resultOf] at hfail hmsg
  simp [hfail, hmsg, JSVal.toStr]

/-- The handler of `profiles` reports a failing API result with the failure text. -/
theorem handleProfilesCommand_failure (env : Env) (msg : Message)
    (req : Request) (m : String)
    (hcall : apiCalls (handleProfilesCommand env msg) = [req])
    (hfail : (resultOf env req).success = false) (hmsg : (resultOf env req).message = .str m) :
    replies (handleProfilesCommand env msg) = [.text ("❌ Hata: " ++ m)] := by
  simp only [handleProfilesCommand, api.getProfiles] at hcall ⊢
  have hreq : (⟨.GET, env.config.apiUrl ++ "/profiles", none⟩ : Request) = req := by
    split_ifs at hcall <;> simpa using hcall
  subst hreq
  simp only [resultOf] at hfail hmsg
  simp [hfail, hmsg, JSVal.toStr]

/-- The handler of `log` reports a failing API result with the failure text. -/
theorem handleLogCommand_failure (env : Env) (msg : Message) (args : List String)
    (req : Request) (m : String)
    (hcall : apiCalls (handleLogCommand env msg args) = [req])
    (hfail : (resultOf env req).success = false) (hmsg : (resultOf env req).message = .str m) :
    replies (handleLogCommand env msg args) = [.text ("❌ Hata: " ++ m)] := by
  by_cases h : resolveLines args < 1 ∨ resolveLines args > 50
  · rw [handleLogCommand_out_of_range env msg args h] at hcall
    simp at hcall
  · rw [(handleLogCommand_in_range env msg args (by omega)).1] at hcall
    simp only [List.cons.injEq, and_true] at hcall
    subst hcall
    simp only [resultOf] at hfail hmsg
    simp only [handleLogCommand, api.getLogs]
    rw [if_neg h]
    simp [hfail, hmsg, JSVal.toStr]

/-- A space is white space for `trim`. -/
theorem isStrWhiteSpaceChar_space : isStrWhiteSpaceChar ' ' = true := by decide

/-- A trimmed text does not end with a space. -/
theorem trimChars_getLast (l : List Char) : (trimChars l).getLast? ≠ some ' ' := by
  unfold trimChars
  rw [List.getLast?_reverse]
  have h := List.head?_dropWhile_not isStrWhiteSpaceChar (l.dropWhile isStrWhiteSpaceChar).reverse
  intro hc
  rw [hc] at h
  simp only [isStrWhiteSpaceChar_space] at h
  exact Bool.noConfusion h

/-- A trimmed text does not start with a space. -/
theorem trimChars_head (l : List Char) : (trimChars l).head? ≠ some ' ' := by
  unfold trimChars
  rw [List.head?_reverse]
  intro hc
  have hsuf := List.dropWhile_suffix (l := (l.dropWhile isStrWhiteSpaceChar).reverse)
    isStrWhiteSpaceChar
  obtain ⟨pre, hpre⟩ := hsuf
  have hne : (l.dropWhile isStrWhiteSpaceChar).reverse.dropWhile isStrWhiteSpaceChar ≠ [] := by
    intro h0
    rw [h0] at hc
    simp at hc
  have hlast : (l.dropWhile isStrWhiteSpaceChar).reverse.getLast? = some ' ' := by
    rw [← hpre, List.getLast?_append_of_ne_nil _ hne]
    exact hc
  rw [List.getLast?_reverse] at hlast
  have h := List.head?_dropWhile_not isStrWhiteSpaceChar l
  rw [hlast] at h
  simp only [isStrWhiteSpaceChar_space] at h
  exact Bool.noConfusion h

/-- Up to empty tokens, the scan of `split(/ +/)` cuts the text at every
space. -/
theorem splitSpacesAux_filter (l : List Char) : ∀ (b : Bool) (cur : List Char),
    (b = true → cur = []) →
    (splitSpacesAux b cur l).filter (fun t => t ≠ []) =
      (List.splitOnP.go isSpace l cur).filter (fun t => t ≠ []) := by
  induction l with
  | nil => intro b cur _; rfl
  | cons c cs ih =>
    intro b cur hb
    by_cases hc : c = ' '
    · subst hc
      cases b with
      | true =>
        have hcur := hb rfl
        subst hcur
        simp only [splitSpacesAux, List.splitOnP.go, isSpace, if_true, decide_True]
        rw [ih true [] (fun _ => rfl)]
        simp
      | false =>
        simp only [splitSpacesAux, List.splitOnP.go, isSpace, if_true, decide_True,
          Bool.false_eq_true, if_false]
        simp only [List.filter_cons]
        rw [ih true [] (fun _ => rfl)]
    · simp only [splitSpacesAux, List.splitOnP.go, isSpace, hc, if_false, decide_False,
        Bool.false_eq_true]
      exact ih false (c :: cur) (fun h => Bool.noConfusion h)

/-- The scan of `split(/ +/)` yields no empty token on a text that neither
starts nor ends with a space, unless the text is empty. -/
theorem splitSpacesAux_ne_nil (l : List Char) : ∀ (b : Bool) (cur : List Char),
    (l = [] → cur ≠ []) → l.getLast? ≠ some ' ' →
    (b = false → cur = [] → l.head? ≠ some ' ') →
    ∀ t ∈ splitSpacesAux b cur l, t ≠ [] := by
  induction l with
  | nil =>
    intro b cur h1 _ _ t ht
    simp only [splitSpacesAux, List.mem_singleton] at ht
    subst ht
    simpa using h1 rfl
  | cons c cs ih =>
    intro b cur _ h2 h3 t ht
    have hcs : cs = [] → c ≠ ' ' := by
      intro h0 hc
      subst h0
      subst hc
      simp at h2
    have hlast : cs.getLast? ≠ some ' ' := by
      intro h
      cases cs with
      | nil => simp at h
      | cons d ds => exact h2 (by rw [List.getLast?_cons_cons]; exact h)
    by_cases hc : c = ' '
    · have hne : cs ≠ [] := fun h0 => hcs h0 hc
      subst hc
      cases b with
      | true =>
        simp only [splitSpacesAux, if_true] at ht
        exact ih true cur (fun h0 => absurd h0 hne) hlast (fun h => Bool.noConfusion h) t ht
      | false =>
        simp only [splitSpacesAux, if_true, Bool.false_eq_true, if_false,
          List.mem_cons] at ht
        rcases ht with rfl | ht
        · intro h0
          have : cur = [] := by simpa using h0
          exact h3 rfl this rfl
        · exact ih true [] (fun h0 => absurd h0 hne) hlast (fun h => Bool.noConfusion h) t ht
    · simp only [splitSpacesAux, hc, if_false] at ht
      exact ih false (c :: cur) (fun _ => List.cons_ne_nil _ _) hlast
        (fun _ h => absurd h (List.cons_ne_nil _ _)) t ht

/-- No token of the scan of `split(/ +/)` contains a space. -/
theorem splitSpacesAux_no_space (l : List Char) : ∀ (b : Bool) (cur : List Char),
    ' ' ∉ cur → ∀ t ∈ splitSpacesAux b cur l, ' ' ∉ t := by
  induction l with
  | nil =>
    intro b cur h t ht
    simp only [splitSpacesAux, List.mem_singleton] at ht
    subst ht
    simpa using h
  | cons c cs ih =>
    intro b cur h t ht
    by_cases hc : c = ' '
    · subst hc
      cases b with
      | true =>
        simp only [splitSpacesAux, if_true] at ht
        exact ih true cur h t ht
      | false =>
        simp only [splitSpacesAux, if_true, Bool.false_eq_true, if_false,
          List.mem_cons] at ht
        rcases ht with rfl | ht
        · simpa using h
        · exact ih true [] (by simp) t ht
    · simp only [splitSpacesAux, hc, if_false] at ht
      refine ih false (c :: cur) ?_ t ht
      simp only [List.mem_cons, not_or]
      exact ⟨fun h' => hc h'.symm, h⟩

/-- On a trimmed text `split(/ +/)` returns the maximal runs of non-space
characters, except that the empty text gives one empty token. -/
theorem splitSpaces_trim (l : List Char) :
    splitSpaces ⟨trimChars l⟩ =
      if trimChars l = [] then [""] else tokensBy isSpace (trimChars l) := by
  by_cases h0 : trimChars l = []
  · rw [if_pos h0]
    simp only [splitSpaces, h0]
    rfl
  · rw [if_neg h0]
    simp only [splitSpaces, tokensBy, List.splitOnP]
    rw [← splitSpacesAux_filter (trimChars l) false [] (fun h => Bool.noConfusion h)]
    congr 1
    symm
    rw [List.filter_eq_self]
    intro t ht
    have := splitSpacesAux_ne_nil (trimChars l) false [] (fun h => absurd h h0)
      (trimChars_getLast l) (fun _ _ => trimChars_head l) t ht
    simpa using this

/-- The arguments of a parsed command are the tokens after the first one. -/
theorem parseCommand_snd (env : Env) (content : String) :
    (parseCommand env content).2 =
      (splitSpaces ⟨trimChars (content.data.drop env.config.commandPrefix.length)⟩).tail := by
  simp only [parseCommand, trim, slice]
  split <;> simp_all

/-- C8 as stated fails: on the message `!log<TAB>5` the parser does not split
at the tab; the command name is `log<TAB>5` with no argument, where splitting
on runs of any white space gives the command `log` with the argument `5`; the
dispatcher therefore ignores the message. -/
theorem parse_does_not_split_at_tabs :
    startsWith "!log\t5" (sampleEnv unreachable).config.commandPrefix = true ∧
      parseCommand (sampleEnv unreachable) "!log\t5" = ("log\t5", []) ∧
      specParse isStrWhiteSpaceChar (sampleEnv unreachable) "!log\t5" = ("log", ["5"]) ∧
      parseCommand (sampleEnv unreachable) "!log\t5" ≠
        specParse isStrWhiteSpaceChar (sampleEnv unreachable) "!log\t5" ∧
      messageCreate (sampleEnv unreachable) (userMessage "!log\t5") = [] := by
  decide

/-- C8, amended: for every message text that starts with the command prefix,
the parser strips the prefix, trims white space at both ends and splits at the
runs of the space character U+0020 only: the command name is the lower-cased
first token (the lower-cased empty string when nothing is left), the
arguments are exactly the remaining tokens in order, unchanged, and no
argument is empty or contains a space. -/
theorem parse_splits_at_space_runs (env : Env) (content : String)
    (_hpre : startsWith content env.config.commandPrefix = true) :
    parseCommand env content = specParse isSpace env content ∧
      ∀ a ∈ (parseCommand env content).2, a ≠ "" ∧ ' ' ∉ a.data := by
  constructor
  · simp only [parseCommand, specParse, trim, slice]
    rw [splitSpaces_trim]
    by_cases h0 : trimChars (content.data.drop env.config.commandPrefix.length) = []
    · rw [if_pos h0, h0]
      rfl
    · rw [if_neg h0]
  · intro a ha
    rw [parseCommand_snd] at ha
    have hmem := List.mem_of_mem_tail ha
    by_cases h0 : trimChars (content.data.drop env.config.commandPrefix.length) = []
    · rw [h0] at ha
      simp [splitSpaces, splitSpacesAux] at ha
    · simp only [splitSpaces, List.mem_map] at hmem
      obtain ⟨t, ht, rfl⟩ := hmem
      have h1 := splitSpacesAux_ne_nil _ false [] (fun h => absurd h h0)
        (trimChars_getLast _) (fun _ _ => trimChars_head _) t ht
      have h2 := splitSpacesAux_no_space _ false [] (by simp) t ht
      refine ⟨?_, h2⟩
      intro h
      apply h1
      have := congrArg String.data h
      simpa using this

/-- C8, amended, at the message `!Start  A   b `. -/
theorem parse_splits_at_space_runs_witness :
    parseCommand (sampleEnv unreachable) "!Start  A   b " =
        specParse isSpace (sampleEnv unreachable) "!Start  A   b " ∧
      ∀ a ∈ (parseCommand (sampleEnv unreachable) "!Start  A   b ").2, a ≠ "" ∧ ' ' ∉ a.data :=
  parse_splits_at_space_runs (sampleEnv unreachable) "!Start  A   b " (by decide)

/-! ## C9: the request and the reply of `addlink` -/

/-- C9: for the argument list `url :: rest`, `addlink` issues exactly one
request, `POST /links` with `url` and with `name` the remaining arguments
joined by single spaces (`null` when there is none); when the result of that
request has `success = true` and message `m`, the single reply is
`"✅ " ++ m`; and `!addlink https://example.com/live MyStream`, answered by
`{success: true, message: "Link added"}`, posts that URL with the name
`MyStream` and replies `✅ Link added`. -/
theorem addlink_posts_url_and_name (env : Env) (msg : Message) (url : String)
    (rest : List String) :
    apiCalls (handleAddLinkCommand env msg (url :: rest)) = [specAddLinkRequest env url rest] ∧
      (∀ m : String, (resultOf env (specAddLinkRequest env url rest)).success = true →
        (resultOf env (specAddLinkRequest env url rest)).message = .str m →
        replies (handleAddLinkCommand env msg (url :: rest)) = [.text ("✅ " ++ m)]) ∧
      messageCreate (sampleEnv (answering (ApiResult.ok "Link added")))
          (userMessage "!addlink https://example.com/live MyStream") =
        [.apiCall ⟨.POST, "http://localhost:5000/links",
            some [("url", .str "https://example.com/live"), ("name", .str "MyStream")]⟩,
         .reply (.text "✅ Link added")] := by
  have hrun : handleAddLinkCommand env msg (url :: rest) =
      [.apiCall (specAddLinkRequest env url rest),
        replyResult (resultOf env (specAddLinkRequest env url rest))] := by
    cases rest <;>
      simp [handleAddLinkCommand, api.addLink, orDefault, index, specAddLinkRequest, join,
        resultOf, attempt]
  refine ⟨?_, ?_, by decide⟩
  · rw [hrun]; simp
  · intro m hok hmsg
    rw [hrun]
    simp [hok, hmsg, JSVal.toStr]

/-- C9 at `addlink https://example.com/live My Stream`, answered with
success. -/
theorem addlink_posts_url_and_name_witness :
    apiCalls (handleAddLinkCommand (sampleEnv (answering (ApiResult.ok "Link added")))
        (userMessage "") ["https://example.com/live", "My", "Stream"]) =
        [⟨.POST, "http://localhost:5000/links",
          some [("url", .str "https://example.com/live"), ("name", .str "My Stream")]⟩] ∧
      replies (handleAddLinkCommand (sampleEnv (answering (ApiResult.ok "Link added")))
        (userMessage "") ["https://example.com/live", "My", "Stream"]) =
        [.text ("✅ " ++ "Link added")] :=
  ⟨(addlink_posts_url_and_name (sampleEnv (answering (ApiResult.ok "Link added")))
      (userMessage "") "https://example.com/live" ["My", "Stream"]).1,
    (addlink_posts_url_and_name (sampleEnv (answering (ApiResult.ok "Link added")))
      (userMessage "") "https://example.com/live" ["My", "Stream"]).2.1 "Link added"
      (by decide) (by decide)⟩

/-! ## C10: the fields of the status embed -/

/-- Adding one field per element, in a loop, appends the mapped list. -/
theorem foldl_addFields {α : Type} (f : α → EmbedField) (l : List α) :
    ∀ e : EmbedBuilder,
      l.foldl (fun (embed : EmbedBuilder) x => embed.addFields [f x]) e =
        { e with fields := e.fields ++ l.map f } := by
  induction l with
  | nil => intro e; simp
  | cons x xs ih =>
    intro e
    simp only [List.foldl_cons, List.map_cons]
    rw [ih]
    simp [EmbedBuilder.addFields]

/-- The trace of `handleStatusCommand` for a successful result: the request
and one reply with one embed. -/
theorem handleStatusCommand_success (env : Env) (msg : Message)
    (hok : (resultOf env (statusRequest env)).success = true) :
    handleStatusCommand env msg =
      [.apiCall (statusRequest env),
       .reply (.embeds [{ title := some "📊 Sistem Durumu", color := some "#0099ff",
                          description := some "Edge Stream Manager durumu:",
                          fields := specStatusFields env (resultOf env (statusRequest env)),
                          timestamp := true }])] := by
  simp only [resultOf, statusRequest] at hok
  simp only [handleStatusCommand, api.getStatus, hok, resultOf, statusRequest, specStatusFields,
    attempt_fst, Bool.not_true, Bool.false_eq_true, if_false]
  rw [foldl_addFields activeLinkField]
  split_ifs <;>
    simp [EmbedBuilder.addFields, EmbedBuilder.setTimestamp, EmbedBuilder.setDescription,
      EmbedBuilder.setColor, EmbedBuilder.setTitle, EmbedBuilder.new]

/-- The status line computed by the handler is the one of the
specification. -/
theorem linkStatusLine_eq_spec (status : JSVal) : linkStatusLine status = specStatusLine status := by
  unfold specStatusLine
  split <;> simp_all [linkStatusLine]

/-- The trace of `handleLinksCommand` for a successful result with an empty
list: the request and the plain text reply. -/
theorem handleLinksCommand_success_empty (env : Env) (msg : Message)
    (hok : (resultOf env (linksRequest env)).success = true)
    (hnil : (resultOf env (linksRequest env)).links = []) :
    handleLinksCommand env msg =
      [.apiCall (linksRequest env), .reply (.text "📋 Kayıtlı link bulunmuyor.")] := by
  simp only [resultOf, linksRequest] at hok hnil
  simp [handleLinksCommand, api.getLinks, linksRequest, hok, hnil]

/-- The loop of `handleLinksCommand` appends the specified field of every
link, in list order. -/
theorem foldl_linkFields (l : List Link) (e : EmbedBuilder) :
    l.foldl (fun (embed : EmbedBuilder) link =>
        embed.addFields [{ name := link.id.toStr ++ ". " ++ link.name.toStr,
                           value := linkStatusLine link.status ++ "\n" ++ link.url.toStr,
                           inline := none }]) e =
      { e with fields := e.fields ++ l.map specLinkField } := by
  have hfun : (fun (embed : EmbedBuilder) (link : Link) =>
      embed.addFields [{ name := link.id.toStr ++ ". " ++ link.name.toStr,
                         value := linkStatusLine link.status ++ "\n" ++ link.url.toStr,
                         inline := none }]) =
      (fun (embed : EmbedBuilder) x => embed.addFields [specLinkField x]) := by
    funext embed link
    simp [specLinkField, linkStatusLine_eq_spec]
  rw [hfun]
  exact foldl_addFields specLinkField l e

/-- The trace of `handleLinksCommand` for a successful result with a non-empty
list: the request and one reply with one embed. -/
theorem handleLinksCommand_success_cons (env : Env) (msg : Message)
    (hok : (resultOf env (linksRequest env)).success = true)
    (hne : (resultOf env (linksRequest env)).links ≠ []) :
    handleLinksCommand env msg =
      [.apiCall (linksRequest env),
       .reply (.embeds [{ title := some "📋 Kayıtlı Linkler", color := some "#0099ff",
                          description := some "Aşağıdaki linkler sisteme kayıtlıdır:",
                          fields := (resultOf env (linksRequest env)).links.map specLinkField,
                          timestamp := true }])] := by
  simp only [resultOf, linksRequest] at hok hne
  have hlen : ¬ (attempt env ⟨.GET, env.config.apiUrl ++ "/links", none⟩).2.links.length = 0 := by
    intro h
    exact hne (List.length_eq_zero.mp h)
  simp only [handleLinksCommand, api.getLinks, hok, resultOf, linksRequest, attempt_fst,
    Bool.not_true, Bool.false_eq_true, if_false, hlen]
  rw [foldl_linkFields]
  simp [EmbedBuilder.setTimestamp, EmbedBuilder.setDescription, EmbedBuilder.setColor,
    EmbedBuilder.setTitle, EmbedBuilder.new]

end Bot
